import Mathlib

/-!
Verification of the S3 Control Object Lambda Access Point resource
(`internal/service/s3control/object_lambda_access_point.go`).

Modelling conventions:
* Go strings are `List Char` (`GoStr`); `gs` converts a Lean string literal.
* Go pointer fields (`*string`, `*bool`, `*T`) and nil-able slices are `Option`.
* Terraform flat maps (`map[string]interface{}`) become typed structures whose
  fields are `Option` exactly where the Go code performs a checked type
  assertion (`v, ok := m[k].(T)`), and plain values where the code asserts
  unconditionally (the hosting framework guarantees the key is present).
* The AWS client, the account/partition context and the package-level finder
  are external collaborators; they are oracle functions in an `Env` record.
* Errors are a small inductive `GoErr`; `fmt.Errorf` with `%w` is `.wrapped`.
-/

/-- Go strings, modelled as lists of characters. -/
abbrev GoStr := List Char

/-- Conversion from a Lean string literal to the `GoStr` model. -/
def gs (s : String) : GoStr := s.toList

deriving instance DecidableEq for Except

/-- Go `error` values as they occur in this resource: the finder's not-found
error, an AWS API error carrying a machine-readable code, a plain formatted
error (`fmt.Errorf` without `%w`), and a wrapping error (`fmt.Errorf` with
`%w`), whose message here is the context text surrounding the cause. -/
inductive GoErr where
  | notFound : GoErr
  | awsErr (code : GoStr) : GoErr
  | formatErr (msg : GoStr) : GoErr
  | wrapped (msg : GoStr) (cause : GoErr) : GoErr
deriving DecidableEq

/-- `tfresource.NotFound`: reports whether an error, or any error in its
wrap chain, is the not-found error. -/
def tfresourceNotFound : GoErr → Bool
  | .notFound => true
  | .wrapped _ cause => tfresourceNotFound cause
  | _ => false

/-- `tfawserr.ErrCodeEquals`: reports whether an error, or any error in its
wrap chain, is an AWS API error with the given code. -/
def tfawserrErrCodeEquals : GoErr → GoStr → Bool
  | .awsErr c, code => c = code
  | .wrapped _ cause, code => tfawserrErrCodeEquals cause code
  | _, _ => false

/-- `s3control.AwsLambdaTransformation` (pointer fields as `Option`). -/
structure AwsLambdaTransformation where
  FunctionArn : Option GoStr := none
  FunctionPayload : Option GoStr := none
deriving DecidableEq

/-- `s3control.ObjectLambdaContentTransformation`. -/
structure ObjectLambdaContentTransformation where
  AwsLambda : Option AwsLambdaTransformation := none
deriving DecidableEq

/-- `s3control.ObjectLambdaTransformationConfiguration`; the `Actions`
slice of string pointers is an `Option` list, `none` for the nil slice. -/
structure ObjectLambdaTransformationConfiguration where
  Actions : Option (List GoStr) := none
  ContentTransformation : Option ObjectLambdaContentTransformation := none
deriving DecidableEq

/-- `s3control.ObjectLambdaConfiguration`. -/
structure ObjectLambdaConfiguration where
  AllowedFeatures : Option (List GoStr) := none
  CloudWatchMetricsEnabled : Option Bool := none
  SupportingAccessPoint : Option GoStr := none
  TransformationConfigurations : Option (List ObjectLambdaTransformationConfiguration) := none
deriving DecidableEq

/-- `s3control.VpcConfiguration`. -/
structure VpcConfiguration where
  VpcId : Option GoStr := none
deriving DecidableEq

/-- `s3control.PublicAccessBlockConfiguration`. -/
structure PublicAccessBlockConfiguration where
  BlockPublicAcls : Option Bool := none
  BlockPublicPolicy : Option Bool := none
  IgnorePublicAcls : Option Bool := none
  RestrictPublicBuckets : Option Bool := none
deriving DecidableEq

/-- `s3control.CreateAccessPointForObjectLambdaInput`. -/
structure CreateAccessPointForObjectLambdaInput where
  AccountId : Option GoStr := none
  Name : Option GoStr := none
  Configuration : Option ObjectLambdaConfiguration := none
deriving DecidableEq

/-- Flat map for the `aws_lambda` block. Both fields are read with a checked
string assertion, so they are `Option GoStr`. -/
structure AwsLambdaTf where
  function_arn : Option GoStr := none
  function_payload : Option GoStr := none
deriving DecidableEq

/-- Flat map for the `content_transformation` block. The `aws_lambda` key is
read with a checked `[]interface` assertion; its elements are asserted to be
maps unconditionally, so they are plain `AwsLambdaTf`. -/
structure ContentTransformationTf where
  aws_lambda : Option (List AwsLambdaTf) := none
deriving DecidableEq

/-- Flat map for one `transformation_configuration` set element. -/
structure TransformationConfigurationTf where
  actions : Option (List GoStr) := none
  content_transformation : Option (List ContentTransformationTf) := none
deriving DecidableEq

/-- Flat map for the `configuration` block. The `transformation_configuration`
set's elements are re-checked (`tfMapRaw, ok`) inside
`expandObjectLambdaTransformationConfigurations`, so they are `Option`. -/
structure ObjectLambdaConfigurationTf where
  allowed_features : Option (List GoStr) := none
  cloud_watch_metrics_enabled : Option Bool := none
  supporting_access_point : Option GoStr := none
  transformation_configuration : Option (List (Option TransformationConfigurationTf)) := none
deriving DecidableEq

/-- Flat map for a `vpc_configuration` block; `vpc_id` is asserted as a
string unconditionally. -/
structure VpcConfigurationTf where
  vpc_id : GoStr := []
deriving DecidableEq

/-- Flat map for a `public_access_block_configuration` block; all four keys
are asserted as booleans unconditionally. -/
structure PublicAccessBlockConfigurationTf where
  block_public_acls : Bool := false
  block_public_policy : Bool := false
  ignore_public_acls : Bool := false
  restrict_public_buckets : Bool := false
deriving DecidableEq

/-- The resource-ID separator constant; it is the one-character string `:`,
modelled as its character. -/
def objectLambdaAccessPointResourceIDSeparator : Char := ':'

/-- Go `strings.Split` for a single-character separator: splits around every
occurrence of the separator; the empty string splits to one empty part. -/
def goSplit (sep : Char) : GoStr → List GoStr
  | [] => [[]]
  | c :: cs =>
    let r := goSplit sep cs
    if c = sep then [] :: r
    else (c :: r.headD []) :: r.tail

/-- Go `strings.Join` for a single-character separator. -/
def goJoin (sep : Char) : List GoStr → GoStr
  | [] => []
  | [p] => p
  | p :: ps => p ++ sep :: goJoin sep ps

/-- `ObjectLambdaAccessPointCreateResourceID`: joins the two components with
the separator. -/
def ObjectLambdaAccessPointCreateResourceID (accountID accessPointName : GoStr) : GoStr :=
  goJoin objectLambdaAccessPointResourceIDSeparator [accountID, accessPointName]

/-- The message of the parse error, exactly as formatted by the source:
`unexpected format for ID (%[1]s), expected account-id%[2]saccess-point-name`
with the separator substituted for the second verb. -/
def objectLambdaAccessPointParseErrorMsg (id : GoStr) : GoStr :=
  gs "unexpected format for ID (" ++ id ++ gs "), expected account-id" ++
    [objectLambdaAccessPointResourceIDSeparator] ++ gs "access-point-name"

/-- `ObjectLambdaAccessPointParseResourceID`: splits on the separator and
requires exactly two non-empty parts. -/
def ObjectLambdaAccessPointParseResourceID (id : GoStr) : Except GoErr (GoStr × GoStr) :=
  match goSplit objectLambdaAccessPointResourceIDSeparator id with
  | [p0, p1] =>
    if p0 ≠ [] ∧ p1 ≠ [] then .ok (p0, p1)
    else .error (.formatErr (objectLambdaAccessPointParseErrorMsg id))
  | _ => .error (.formatErr (objectLambdaAccessPointParseErrorMsg id))

/-- `expandAwsLambdaTransformation`. -/
def expandAwsLambdaTransformation : Option AwsLambdaTf → Option AwsLambdaTransformation
  | none => none
  | some tfMap =>
    some {
      FunctionArn :=
        match tfMap.function_arn with
        | some v => if v ≠ [] then some v else none
        | none => none
      FunctionPayload :=
        match tfMap.function_payload with
        | some v => if v ≠ [] then some v else none
        | none => none }

/-- `expandObjectLambdaContentTransformation`. -/
def expandObjectLambdaContentTransformation :
    Option ContentTransformationTf → Option ObjectLambdaContentTransformation
  | none => none
  | some tfMap =>
    some {
      AwsLambda :=
        match tfMap.aws_lambda with
        | some (m :: _) => expandAwsLambdaTransformation (some m)
        | _ => none }

/-- `expandObjectLambdaTransformationConfiguration`. -/
def expandObjectLambdaTransformationConfiguration :
    Option TransformationConfigurationTf → Option ObjectLambdaTransformationConfiguration
  | none => none
  | some tfMap =>
    some {
      Actions :=
        match tfMap.actions with
        | some v => if v ≠ [] then some v else none
        | none => none
      ContentTransformation :=
        match tfMap.content_transformation with
        | some (m :: _) => expandObjectLambdaContentTransformation (some m)
        | _ => none }

/-- `expandObjectLambdaTransformationConfigurations`: skips non-map elements,
returns the nil slice (`none`) when the input or the output is empty. -/
def expandObjectLambdaTransformationConfigurations
    (tfList : List (Option TransformationConfigurationTf)) :
    Option (List ObjectLambdaTransformationConfiguration) :=
  if tfList = [] then none
  else
    let apiObjects := tfList.filterMap expandObjectLambdaTransformationConfiguration
    if apiObjects = [] then none else some apiObjects

/-- `expandObjectLambdaConfiguration`. -/
def expandObjectLambdaConfiguration :
    Option ObjectLambdaConfigurationTf → Option ObjectLambdaConfiguration
  | none => none
  | some tfMap =>
    some {
      AllowedFeatures :=
        match tfMap.allowed_features with
        | some v => if v ≠ [] then some v else none
        | none => none
      CloudWatchMetricsEnabled :=
        match tfMap.cloud_watch_metrics_enabled with
        | some v => if v then some v else none
        | none => none
      SupportingAccessPoint :=
        match tfMap.supporting_access_point with
        | some v => if v ≠ [] then some v else none
        | none => none
      TransformationConfigurations :=
        match tfMap.transformation_configuration with
        | some v => if v ≠ [] then expandObjectLambdaTransformationConfigurations v else none
        | none => none }

/-- `expandS3ObjectLambdaAccessPointVpcConfiguration`: nil for an empty list
or a nil head; otherwise copies `vpc_id` unconditionally. -/
def expandS3ObjectLambdaAccessPointVpcConfiguration
    (vConfig : List (Option VpcConfigurationTf)) : Option VpcConfiguration :=
  match vConfig with
  | [] => none
  | none :: _ => none
  | some mConfig :: _ => some { VpcId := some mConfig.vpc_id }

/-- `flattenS3ObjectLambdaAccessPointVpcConfiguration`: the returned Go slice
is nil-able in type, so the result is `Option`; the function itself always
returns a non-nil slice (`some`), empty for a nil input structure.
`aws.StringValue` of a nil pointer is the empty string. -/
def flattenS3ObjectLambdaAccessPointVpcConfiguration
    (config : Option VpcConfiguration) : Option (List (Option VpcConfigurationTf)) :=
  match config with
  | none => some []
  | some config => some [some { vpc_id := config.VpcId.getD [] }]

/-- `expandS3ObjectLambdaAccessPointPublicAccessBlockConfiguration`: nil for
an empty list or a nil head; otherwise copies all four booleans
unconditionally. -/
def expandS3ObjectLambdaAccessPointPublicAccessBlockConfiguration
    (vConfig : List (Option PublicAccessBlockConfigurationTf)) :
    Option PublicAccessBlockConfiguration :=
  match vConfig with
  | [] => none
  | none :: _ => none
  | some mConfig :: _ =>
    some {
      BlockPublicAcls := some mConfig.block_public_acls
      BlockPublicPolicy := some mConfig.block_public_policy
      IgnorePublicAcls := some mConfig.ignore_public_acls
      RestrictPublicBuckets := some mConfig.restrict_public_buckets }

/-- `flattenS3ObjectLambdaAccessPointPublicAccessBlockConfiguration`;
`aws.BoolValue` of a nil pointer is `false`. -/
def flattenS3ObjectLambdaAccessPointPublicAccessBlockConfiguration
    (config : Option PublicAccessBlockConfiguration) :
    Option (List (Option PublicAccessBlockConfigurationTf)) :=
  match config with
  | none => some []
  | some config =>
    some [some {
      block_public_acls := config.BlockPublicAcls.getD false
      block_public_policy := config.BlockPublicPolicy.getD false
      ignore_public_acls := config.IgnorePublicAcls.getD false
      restrict_public_buckets := config.RestrictPublicBuckets.getD false }]

/-- The tracked Terraform state of one resource instance: the identifier,
the framework's new-resource flag, and the schema attributes. Optional and
computed string attributes are `Option`; `name` is required, so `d.Get`
yields the string itself. -/
structure ResourceData where
  id : GoStr := []
  isNewResource : Bool := false
  account_id : Option GoStr := none
  arn : Option GoStr := none
  name : GoStr := []
  configuration : List (Option ObjectLambdaConfigurationTf) := []
deriving DecidableEq

/-- The external collaborators reached through `meta`: the provider's account
ID and partition, the package-level finder, and the two AWS API calls used by
this resource. Each call returns `none` for success or `some` error. -/
structure Env where
  accountID : GoStr
  partition : GoStr
  findObjectLambdaAccessPointByAccountIDAndName : GoStr → GoStr → Option GoErr
  createAccessPointForObjectLambda : CreateAccessPointForObjectLambdaInput → Option GoErr
  deleteAccessPointForObjectLambda : GoStr → GoStr → Option GoErr

/-- The ARN built in Read: `arn.ARN{Partition, Service: "s3-object-lambda",
AccountID, Resource: "accesspoint/" + name}.String()`, where the SDK's
`String` renders `arn:partition:service:region:account-id:resource` and the
region field is left empty. -/
def objectLambdaAccessPointARN (partition accountID name : GoStr) : GoStr :=
  gs "arn:" ++ partition ++ gs ":s3-object-lambda::" ++ accountID ++
    gs ":accesspoint/" ++ name

/-- `resourceObjectLambdaAccessPointRead`. -/
def resourceObjectLambdaAccessPointRead (env : Env) (d : ResourceData) :
    ResourceData × Option GoErr :=
  match ObjectLambdaAccessPointParseResourceID d.id with
  | .error err => (d, some err)
  | .ok (accountID, name) =>
    match env.findObjectLambdaAccessPointByAccountIDAndName accountID name with
    | some err =>
      if !d.isNewResource && tfresourceNotFound err then
        ({ d with id := [] }, none)
      else
        (d, some (.wrapped
          (gs "error reading S3 Object Lambda Access Point (" ++ d.id ++ gs ")") err))
    | none =>
      ({ d with
          account_id := some accountID,
          arn := some (objectLambdaAccessPointARN env.partition accountID name),
          name := name },
        none)

/-- `resourceObjectLambdaAccessPointCreate`: the account ID comes from the
`account_id` attribute when set and non-empty (`d.GetOk`), otherwise from the
provider; the configuration is expanded when the list attribute is non-empty
with a non-nil head; on success the identifier is assigned and Read runs. -/
def resourceObjectLambdaAccessPointCreate (env : Env) (d : ResourceData) :
    ResourceData × Option GoErr :=
  let accountID :=
    match d.account_id with
    | some v => if v ≠ [] then v else env.accountID
    | none => env.accountID
  let name := d.name
  let resourceID := ObjectLambdaAccessPointCreateResourceID accountID name
  let config :=
    match d.configuration with
    | some m :: _ => expandObjectLambdaConfiguration (some m)
    | _ => none
  let input : CreateAccessPointForObjectLambdaInput :=
    { AccountId := some accountID, Name := some name, Configuration := config }
  match env.createAccessPointForObjectLambda input with
  | some err =>
    (d, some (.wrapped
      (gs "error creating S3 Object Lambda Access Point (" ++ resourceID ++ gs ")") err))
  | none => resourceObjectLambdaAccessPointRead env { d with id := resourceID }

/-- `resourceObjectLambdaAccessPointUpdate`: delegates to Read. -/
def resourceObjectLambdaAccessPointUpdate (env : Env) (d : ResourceData) :
    ResourceData × Option GoErr :=
  resourceObjectLambdaAccessPointRead env d

/-- Modelled from the spec: the package's `errCodeNoSuchAccessPoint`
constant (declared in the package's errors file, outside this source file)
is the AWS "no such access point" error code. -/
def errCodeNoSuchAccessPoint : GoStr := gs "NoSuchAccessPoint"

/-- `resourceObjectLambdaAccessPointDelete`. -/
def resourceObjectLambdaAccessPointDelete (env : Env) (d : ResourceData) :
    ResourceData × Option GoErr :=
  match ObjectLambdaAccessPointParseResourceID d.id with
  | .error err => (d, some err)
  | .ok (accountID, name) =>
    match env.deleteAccessPointForObjectLambda accountID name with
    | some err =>
      if tfawserrErrCodeEquals err errCodeNoSuchAccessPoint then (d, none)
      else
        (d, some (.wrapped
          (gs "error deleting S3 Object Lambda Access Point (" ++ d.id ++ gs ")") err))
    | none => (d, none)

/-- A concrete environment in which every external call succeeds. -/
def witnessEnv : Env :=
  { accountID := gs "123456789012",
    partition := gs "aws",
    findObjectLambdaAccessPointByAccountIDAndName := fun _ _ => none,
    createAccessPointForObjectLambda := fun _ => none,
    deleteAccessPointForObjectLambda := fun _ _ => none }

/-- A concrete environment whose finder reports the resource as not found. -/
def notFoundEnv : Env :=
  { witnessEnv with
      findObjectLambdaAccessPointByAccountIDAndName := fun _ _ => some .notFound }

/-- A concrete environment whose delete call fails with the
"no such access point" code. -/
def noSuchAPEnv : Env :=
  { witnessEnv with
      deleteAccessPointForObjectLambda := fun _ _ => some (.awsErr errCodeNoSuchAccessPoint) }

/-- A concrete environment whose delete call fails with an unrelated code. -/
def otherErrEnv : Env :=
  { witnessEnv with
      deleteAccessPointForObjectLambda := fun _ _ => some (.awsErr (gs "AccessDenied")) }

/-- A concrete tracked state holding a well-formed identifier. -/
def readData : ResourceData :=
  { id := gs "123456789012:example", name := gs "example" }

/-- The same state flagged as newly created. -/
def readDataNew : ResourceData := { readData with isNewResource := true }

/-- The configuration block of the spec's Create scenario. -/
def scenarioConfiguration : ObjectLambdaConfigurationTf :=
  { allowed_features := some [gs "GetObject-Range"],
    supporting_access_point := some (gs "arn:aws:s3:us-east-1:123456789012:accesspoint/my-ap") }

/-- The initial state of the spec's Create scenario. -/
def scenarioData : ResourceData :=
  { isNewResource := true,
    name := gs "example",
    configuration := [some scenarioConfiguration] }

/-- A flat public-access-block map whose four fields all carry the zero
value `false`. -/
def allFalsePublicAccessBlockTf : PublicAccessBlockConfigurationTf := {}

theorem goSplit_ne_nil (sep : Char) (l : GoStr) : goSplit sep l ≠ [] := by
  cases l with
  | nil => simp [goSplit]
  | cons c cs =>
    simp only [goSplit]
    split <;> simp

theorem goSplit_of_not_mem (sep : Char) (l : GoStr) (h : sep ∉ l) :
    goSplit sep l = [l] := by
  induction l with
  | nil => rfl
  | cons c cs ih =>
    have hc : ¬ c = sep := fun hE => h (hE ▸ List.mem_cons_self c cs)
    have hcs : sep ∉ cs := fun hm => h (List.mem_cons_of_mem _ hm)
    simp [goSplit, hc, ih hcs]

theorem goSplit_append_cons (sep : Char) (a r : GoStr) (h : sep ∉ a) :
    goSplit sep (a ++ sep :: r) = a :: goSplit sep r := by
  induction a with
  | nil => simp [goSplit]
  | cons c a' ih =>
    have hc : ¬ c = sep := fun hE => h (hE ▸ List.mem_cons_self c a')
    have ha' : sep ∉ a' := fun hm => h (List.mem_cons_of_mem _ hm)
    simp [goSplit, hc, ih ha', goSplit_ne_nil]

theorem goJoin_goSplit (sep : Char) (l : GoStr) : goJoin sep (goSplit sep l) = l := by
  induction l with
  | nil => rfl
  | cons c cs ih =>
    obtain ⟨p, ps, hps⟩ := List.exists_cons_of_ne_nil (goSplit_ne_nil sep cs)
    by_cases hc : c = sep
    · subst hc
      rw [show goSplit c (c :: cs) = [] :: goSplit c cs from by simp [goSplit]]
      rw [hps] at ih ⊢
      simp only [goJoin, List.nil_append]
      rw [ih]
    · rw [show goSplit sep (c :: cs) =
        (c :: (goSplit sep cs).headD []) :: (goSplit sep cs).tail from by
          simp [goSplit, hc]]
      rw [hps] at ih ⊢
      cases ps with
      | nil =>
        simp only [goJoin, List.headD, List.tail] at ih ⊢
        rw [ih]
      | cons q qs =>
        simp only [goJoin, List.headD, List.tail] at ih ⊢
        rw [List.cons_append, ih]

/-- C1: counterexample. The components `a:b` and `c` are both non-empty, yet
decoding the identifier produced from them does not return them: the encoded
string `a:b:c` splits into three parts and parsing fails. -/
theorem createResourceID_parse_roundTrip_fails_on_separator :
    gs "a:b" ≠ [] ∧ gs "c" ≠ [] ∧
    ObjectLambdaAccessPointParseResourceID
      (ObjectLambdaAccessPointCreateResourceID (gs "a:b") (gs "c")) ≠
      Except.ok (gs "a:b", gs "c") := by
  decide

/-- C1 (amended): for every pair of non-empty component strings that do not
contain the separator, decoding the identifier produced by
`ObjectLambdaAccessPointCreateResourceID` with
`ObjectLambdaAccessPointParseResourceID` returns exactly the original
components with no error. -/
theorem createResourceID_parse_roundTrip (a b : GoStr)
    (ha : a ≠ []) (hb : b ≠ [])
    (hsa : objectLambdaAccessPointResourceIDSeparator ∉ a)
    (hsb : objectLambdaAccessPointResourceIDSeparator ∉ b) :
    ObjectLambdaAccessPointParseResourceID
      (ObjectLambdaAccessPointCreateResourceID a b) = .ok (a, b) := by
  have hid : ObjectLambdaAccessPointCreateResourceID a b =
      a ++ objectLambdaAccessPointResourceIDSeparator :: b := by
    simp [ObjectLambdaAccessPointCreateResourceID, goJoin]
  have hsplit : goSplit objectLambdaAccessPointResourceIDSeparator
      (a ++ objectLambdaAccessPointResourceIDSeparator :: b) = [a, b] := by
    rw [goSplit_append_cons _ _ _ hsa, goSplit_of_not_mem _ _ hsb]
  simp only [ObjectLambdaAccessPointParseResourceID, hid, hsplit]
  simp [ha, hb]

/-- C1 witness: the round-trip at the concrete components of the spec's
scenario. -/
theorem createResourceID_parse_roundTrip_witness :
    ObjectLambdaAccessPointParseResourceID
      (ObjectLambdaAccessPointCreateResourceID (gs "123456789012") (gs "example")) =
      .ok (gs "123456789012", gs "example") :=
  createResourceID_parse_roundTrip (gs "123456789012") (gs "example")
    (by decide) (by decide) (by decide) (by decide)

/-- C3: parsing fails for the empty string, for every string that does not
split on the separator into exactly two parts, and for every string with an
empty part; the error is the formatted message, which ends with the expected
format `account-id:access-point-name`. -/
theorem parseResourceID_rejects_malformed (id : GoStr)
    (h : id = [] ∨ (goSplit objectLambdaAccessPointResourceIDSeparator id).length ≠ 2 ∨
      ∃ p ∈ goSplit objectLambdaAccessPointResourceIDSeparator id, p = []) :
    ObjectLambdaAccessPointParseResourceID id =
      .error (.formatErr (objectLambdaAccessPointParseErrorMsg id)) ∧
    List.IsSuffix (gs "account-id:access-point-name")
      (objectLambdaAccessPointParseErrorMsg id) := by
  constructor
  · unfold ObjectLambdaAccessPointParseResourceID
    split
    next p0 p1 heq =>
      have hcond : ¬ (p0 ≠ [] ∧ p1 ≠ []) := by
        rcases h with h | h | ⟨p, hp, hpe⟩
        · subst h
          simp [goSplit] at heq
        · rw [heq] at h
          simp at h
        · subst hpe
          rw [heq] at hp
          simp only [List.mem_cons, List.not_mem_nil, or_false] at hp
          rintro ⟨h0, h1⟩
          rcases hp with hp | hp
          · exact h0 hp.symm
          · exact h1 hp.symm
      rw [if_neg hcond]
    next => rfl
  · refine ⟨gs "unexpected format for ID (" ++ id ++ gs "), expected ", ?_⟩
    simp only [objectLambdaAccessPointParseErrorMsg, List.append_assoc]
    congr 2

/-- C3 witness: the concrete malformed input with an empty first part. -/
theorem parseResourceID_rejects_malformed_witness :
    ObjectLambdaAccessPointParseResourceID (gs ":name") =
      .error (.formatErr (objectLambdaAccessPointParseErrorMsg (gs ":name"))) ∧
    List.IsSuffix (gs "account-id:access-point-name")
      (objectLambdaAccessPointParseErrorMsg (gs ":name")) :=
  parseResourceID_rejects_malformed (gs ":name") (by decide)

/-- C10: every identifier accepted by
`ObjectLambdaAccessPointParseResourceID` is reproduced exactly by re-encoding
the two decoded components with `ObjectLambdaAccessPointCreateResourceID`;
accepted identifiers therefore have the canonical two-part form. -/
theorem parse_accepts_only_canonical (id a b : GoStr)
    (h : ObjectLambdaAccessPointParseResourceID id = .ok (a, b)) :
    ObjectLambdaAccessPointCreateResourceID a b = id := by
  have hsplit : goSplit objectLambdaAccessPointResourceIDSeparator id = [a, b] := by
    unfold ObjectLambdaAccessPointParseResourceID at h
    split at h
    next p0 p1 heq =>
      split at h
      · injection h with hv
        cases hv
        exact heq
      · exact absurd h (by simp)
    next => exact absurd h (by simp)
  calc ObjectLambdaAccessPointCreateResourceID a b
      = goJoin objectLambdaAccessPointResourceIDSeparator [a, b] := rfl
    _ = goJoin objectLambdaAccessPointResourceIDSeparator
          (goSplit objectLambdaAccessPointResourceIDSeparator id) := by rw [hsplit]
    _ = id := goJoin_goSplit _ id

/-- C10 witness: decode-then-encode at a concrete accepted identifier. -/
theorem parse_accepts_only_canonical_witness :
    ObjectLambdaAccessPointParseResourceID (gs "123456789012:example") =
      .ok (gs "123456789012", gs "example") ∧
    ObjectLambdaAccessPointCreateResourceID (gs "123456789012") (gs "example") =
      gs "123456789012:example" :=
  ⟨by decide,
   parse_accepts_only_canonical (gs "123456789012:example")
     (gs "123456789012") (gs "example") (by decide)⟩

/-- C2: when the identifier parses and the finder reports not-found, Read on
a not-newly-created resource clears the identifier and returns no error,
while Read on a newly created resource surfaces the same not-found result as
a wrapped error. -/
theorem read_notFound_softDelete (env : Env) (d : ResourceData) (a n : GoStr) (e : GoErr)
    (hp : ObjectLambdaAccessPointParseResourceID d.id = .ok (a, n))
    (hf : env.findObjectLambdaAccessPointByAccountIDAndName a n = some e)
    (hnf : tfresourceNotFound e = true) :
    (d.isNewResource = false →
      resourceObjectLambdaAccessPointRead env d = ({ d with id := [] }, none)) ∧
    (d.isNewResource = true →
      resourceObjectLambdaAccessPointRead env d =
        (d, some (.wrapped
          (gs "error reading S3 Object Lambda Access Point (" ++ d.id ++ gs ")") e))) := by
  unfold resourceObjectLambdaAccessPointRead
  rw [hp]
  constructor
  · intro hnew
    simp [hf, hnew, hnf]
  · intro hnew
    simp [hf, hnew, hnf]

/-- C2 witness: a not-found Read on an existing state clears the identifier
without error, and on a newly created state surfaces the error. -/
theorem read_notFound_softDelete_witness :
    resourceObjectLambdaAccessPointRead notFoundEnv readData =
      ({ readData with id := [] }, none) ∧
    resourceObjectLambdaAccessPointRead notFoundEnv readDataNew =
      (readDataNew, some (.wrapped
        (gs "error reading S3 Object Lambda Access Point (" ++ readDataNew.id ++ gs ")")
        .notFound)) :=
  ⟨(read_notFound_softDelete notFoundEnv readData (gs "123456789012") (gs "example")
      .notFound (by decide) rfl rfl).1 rfl,
   (read_notFound_softDelete notFoundEnv readDataNew (gs "123456789012") (gs "example")
      .notFound (by decide) rfl rfl).2 rfl⟩

/-- C6: when the identifier parses, a delete call failing with the
"no such access point" code yields success with no error, and a delete call
failing with any other error yields that error wrapped. -/
theorem delete_noSuchAccessPoint_ok (env : Env) (d : ResourceData) (a n : GoStr)
    (hp : ObjectLambdaAccessPointParseResourceID d.id = .ok (a, n)) :
    (∀ e, env.deleteAccessPointForObjectLambda a n = some e →
      tfawserrErrCodeEquals e errCodeNoSuchAccessPoint = true →
      resourceObjectLambdaAccessPointDelete env d = (d, none)) ∧
    (∀ e, env.deleteAccessPointForObjectLambda a n = some e →
      tfawserrErrCodeEquals e errCodeNoSuchAccessPoint = false →
      resourceObjectLambdaAccessPointDelete env d =
        (d, some (.wrapped
          (gs "error deleting S3 Object Lambda Access Point (" ++ d.id ++ gs ")") e))) := by
  unfold resourceObjectLambdaAccessPointDelete
  rw [hp]
  constructor
  · intro e he hc
    simp [he, hc]
  · intro e he hc
    simp [he, hc]

/-- C6 witness: a concrete Delete under the "no such access point" failure
succeeds, and under an unrelated failure surfaces the wrapped error. -/
theorem delete_noSuchAccessPoint_ok_witness :
    resourceObjectLambdaAccessPointDelete noSuchAPEnv readData = (readData, none) ∧
    resourceObjectLambdaAccessPointDelete otherErrEnv readData =
      (readData, some (.wrapped
        (gs "error deleting S3 Object Lambda Access Point (" ++ readData.id ++ gs ")")
        (.awsErr (gs "AccessDenied")))) :=
  ⟨(delete_noSuchAccessPoint_ok noSuchAPEnv readData (gs "123456789012") (gs "example")
      (by decide)).1 (.awsErr errCodeNoSuchAccessPoint) rfl (by decide),
   (delete_noSuchAccessPoint_ok otherErrEnv readData (gs "123456789012") (gs "example")
      (by decide)).2 (.awsErr (gs "AccessDenied")) rfl (by decide)⟩

/-- C9: for every environment and every state, Update returns exactly the
result of Read on the same state; it performs no mutation call of its own. -/
theorem update_eq_read (env : Env) (d : ResourceData) :
    resourceObjectLambdaAccessPointUpdate env d =
      resourceObjectLambdaAccessPointRead env d := rfl

/-- C4: counterexample. In the spec's Create scenario under partition `aws`
the assigned identifier is `123456789012:example` as claimed, but the arn
attribute set by the subsequent Read is not
`arn:aws:s3-object-lambda:aws:123456789012:accesspoint/example` (the claimed
template with the partition placeholder filled in): the partition occupies
the second ARN slot only and the region slot is left empty. -/
theorem create_scenario_arn_counterexample :
    (resourceObjectLambdaAccessPointCreate witnessEnv scenarioData).1.id =
      gs "123456789012:example" ∧
    (resourceObjectLambdaAccessPointCreate witnessEnv scenarioData).1.arn ≠
      some (gs "arn:aws:s3-object-lambda:aws:123456789012:accesspoint/example") := by
  decide

/-- C4 (amended): in the spec's Create scenario the assigned identifier is
`123456789012:example`, the operation succeeds, and the subsequent Read sets
the arn attribute to `arn:aws:s3-object-lambda::123456789012:accesspoint/example`
(partition in the second slot, empty region slot). -/
theorem create_scenario_id_and_arn :
    (resourceObjectLambdaAccessPointCreate witnessEnv scenarioData).1.id =
      gs "123456789012:example" ∧
    (resourceObjectLambdaAccessPointCreate witnessEnv scenarioData).1.arn =
      some (gs "arn:aws:s3-object-lambda::123456789012:accesspoint/example") ∧
    (resourceObjectLambdaAccessPointCreate witnessEnv scenarioData).2 = none := by
  decide

/-- C5: counterexample. The public-access-block expander does not leave a
zero-valued optional field unset: with `block_public_acls` carrying the zero
value `false`, the request field becomes a present pointer to `false`
rather than staying nil. -/
theorem expandPublicAccessBlock_sets_zero_valued_field :
    (expandS3ObjectLambdaAccessPointPublicAccessBlockConfiguration
        [some allFalsePublicAccessBlockTf]).map
      (fun c => c.BlockPublicAcls) ≠ some none ∧
    (expandS3ObjectLambdaAccessPointPublicAccessBlockConfiguration
        [some allFalsePublicAccessBlockTf]).map
      (fun c => c.BlockPublicAcls) = some (some false) := by
  decide

/-- C5 (amended): the expand functions of the Object Lambda configuration
tree are absence-preserving: every optional field that is absent, zero-valued
or an empty collection in the flat map leaves the corresponding request field
at its nil/unset representation. (The orphan VpcConfiguration and
PublicAccessBlockConfiguration expanders instead copy their scalar fields
unconditionally.) -/
theorem expandObjectLambda_absence_preserving (m : ObjectLambdaConfigurationTf)
    (t : TransformationConfigurationTf) (c : ContentTransformationTf) (l : AwsLambdaTf) :
    ((m.allowed_features = none ∨ m.allowed_features = some []) →
      (expandObjectLambdaConfiguration (some m)).map
        (fun x => x.AllowedFeatures) = some none) ∧
    ((m.cloud_watch_metrics_enabled = none ∨ m.cloud_watch_metrics_enabled = some false) →
      (expandObjectLambdaConfiguration (some m)).map
        (fun x => x.CloudWatchMetricsEnabled) = some none) ∧
    ((m.supporting_access_point = none ∨ m.supporting_access_point = some []) →
      (expandObjectLambdaConfiguration (some m)).map
        (fun x => x.SupportingAccessPoint) = some none) ∧
    ((m.transformation_configuration = none ∨ m.transformation_configuration = some []) →
      (expandObjectLambdaConfiguration (some m)).map
        (fun x => x.TransformationConfigurations) = some none) ∧
    ((t.actions = none ∨ t.actions = some []) →
      (expandObjectLambdaTransformationConfiguration (some t)).map
        (fun x => x.Actions) = some none) ∧
    ((t.content_transformation = none ∨ t.content_transformation = some []) →
      (expandObjectLambdaTransformationConfiguration (some t)).map
        (fun x => x.ContentTransformation) = some none) ∧
    ((c.aws_lambda = none ∨ c.aws_lambda = some []) →
      (expandObjectLambdaContentTransformation (some c)).map
        (fun x => x.AwsLambda) = some none) ∧
    ((l.function_arn = none ∨ l.function_arn = some []) →
      (expandAwsLambdaTransformation (some l)).map
        (fun x => x.FunctionArn) = some none) ∧
    ((l.function_payload = none ∨ l.function_payload = some []) →
      (expandAwsLambdaTransformation (some l)).map
        (fun x => x.FunctionPayload) = some none) := by
  refine ⟨?_, ?_, ?_, ?_, ?_, ?_, ?_, ?_, ?_⟩ <;>
    first
    | rintro (h | h) <;>
        simp [expandObjectLambdaConfiguration,
          expandObjectLambdaTransformationConfiguration,
          expandObjectLambdaContentTransformation,
          expandAwsLambdaTransformation, h]

/-- C5 witness: every optional field of the all-absent flat maps is left
unset by the Object Lambda expand functions. -/
theorem expandObjectLambda_absence_preserving_witness :
    (expandObjectLambdaConfiguration (some {})).map
      (fun x => x.AllowedFeatures) = some none ∧
    (expandObjectLambdaConfiguration (some {})).map
      (fun x => x.CloudWatchMetricsEnabled) = some none ∧
    (expandObjectLambdaConfiguration (some {})).map
      (fun x => x.SupportingAccessPoint) = some none ∧
    (expandObjectLambdaConfiguration (some {})).map
      (fun x => x.TransformationConfigurations) = some none ∧
    (expandObjectLambdaTransformationConfiguration (some {})).map
      (fun x => x.Actions) = some none ∧
    (expandObjectLambdaTransformationConfiguration (some {})).map
      (fun x => x.ContentTransformation) = some none ∧
    (expandObjectLambdaContentTransformation (some {})).map
      (fun x => x.AwsLambda) = some none ∧
    (expandAwsLambdaTransformation (some {})).map
      (fun x => x.FunctionArn) = some none ∧
    (expandAwsLambdaTransformation (some {})).map
      (fun x => x.FunctionPayload) = some none :=
  ⟨(expandObjectLambda_absence_preserving {} {} {} {}).1 (Or.inl rfl),
   (expandObjectLambda_absence_preserving {} {} {} {}).2.1 (Or.inl rfl),
   (expandObjectLambda_absence_preserving {} {} {} {}).2.2.1 (Or.inl rfl),
   (expandObjectLambda_absence_preserving {} {} {} {}).2.2.2.1 (Or.inl rfl),
   (expandObjectLambda_absence_preserving {} {} {} {}).2.2.2.2.1 (Or.inl rfl),
   (expandObjectLambda_absence_preserving {} {} {} {}).2.2.2.2.2.1 (Or.inl rfl),
   (expandObjectLambda_absence_preserving {} {} {} {}).2.2.2.2.2.2.1 (Or.inl rfl),
   (expandObjectLambda_absence_preserving {} {} {} {}).2.2.2.2.2.2.2.1 (Or.inl rfl),
   (expandObjectLambda_absence_preserving {} {} {} {}).2.2.2.2.2.2.2.2 (Or.inl rfl)⟩

/-- C7: flattening the expansion of a non-empty, fully-populated
configuration block returns the block unchanged, for both block types that
have an expand and a flatten function; neither type has computed-only
fields. -/
theorem flatten_expand_roundTrip (v : VpcConfigurationTf)
    (p : PublicAccessBlockConfigurationTf) :
    flattenS3ObjectLambdaAccessPointVpcConfiguration
      (expandS3ObjectLambdaAccessPointVpcConfiguration [some v]) = some [some v] ∧
    flattenS3ObjectLambdaAccessPointPublicAccessBlockConfiguration
      (expandS3ObjectLambdaAccessPointPublicAccessBlockConfiguration [some p]) =
      some [some p] :=
  ⟨rfl, rfl⟩

/-- C8: both flatten functions map the nil nested structure to the empty,
non-nil container (`some []` in the nil-able slice model). -/
theorem flatten_nil_empty :
    flattenS3ObjectLambdaAccessPointVpcConfiguration none = some [] ∧
    flattenS3ObjectLambdaAccessPointPublicAccessBlockConfiguration none = some [] :=
  ⟨rfl, rfl⟩
